import Mathlib

/-!
Shallow embedding of the silent-ripple generative-art sketch.

The repository ships two variants of the same p5.js sketch:

* Variant 1 (namespace `V1`): `Ripple` with constant growth rate, `Particle`
  with gravity, and a dispatcher (`mousePressed`) that classifies the
  inter-press interval into slow ripple / medium ripple / burst of 10
  particles.
* Variant 2 (namespace `V2`): adds a `HeartRateTracker` (bounded FIFO of
  inter-press intervals whose average is mapped to a calmness scalar in
  [0,1]), a per-frame exponentially smoothed atmosphere scalar, a `Ripple`
  with decelerating growth (rate scaled by `(1 - r/maxR)^0.5`) and a
  dissolve phase, and a `Particle` attracted toward the nearest canvas edge.

Numbers are embedded as exact rationals (`ℚ`); the variant-2 `Ripple`,
whose update involves a square root, is embedded over the reals (`ℝ`), and
its radius — the one quantity that JavaScript can drive to `NaN`, via
`Math.pow(negative, 0.5)` once the radius has passed its cap — is carried
in a JS-number type `JsNum` with explicit `NaN` propagation and
`NaN`-is-incomparable ordering.  Decimal literals of the source
are written as fractions (`0.3 = 3/10`, `0.995 = 995/1000`, ...).  Fields
that only feed `display` (colors, wobble amplitude) and the `display`
methods themselves are omitted: they never touch the mutable state.
Randomized constructor inputs (`p.random` draws, and the `cos/sin` of the
random burst angle) are passed as explicit parameters of the `init`
functions.  The element collections of the dispatcher states record, for
each spawned element, its constructor kind together with the calmness value
passed to it (variant 2), which is the only constructor data the spawning
logic itself determines.
-/

namespace P5

/-- p5.js `lerp(a, b, t) = a + (b - a) * t`. -/
def lerp (a b t : ℚ) : ℚ := a + (b - a) * t

/-- p5.js `map(v, s1, e1, s2, e2)` (no clamping), used for the particle
edge-attraction coefficient. -/
def mapRange (v s1 e1 s2 e2 : ℚ) : ℚ := s2 + (e2 - s2) * ((v - s1) / (e1 - s1))

end P5

namespace HeartRateTracker

/-- Capacity of the interval history (`maxSamples = 10`). -/
def maxSamples : ℕ := 10

/-- Variant 2 `HeartRateTracker.addInterval`: push the new interval, then
shift (drop the oldest, i.e. the head) when the history exceeds
`maxSamples`. -/
def addInterval (intervals : List ℚ) (interval : ℚ) : List ℚ :=
  let pushed := intervals ++ [interval]
  if pushed.length > maxSamples then pushed.tail else pushed

/-- Variant 2 `HeartRateTracker.getCalmness`: `0.5` with fewer than two
samples, otherwise the sample average mapped by `(avg - 200) / 600` and
clamped into `[0,1]` by `min 1 (max 0 _)`. -/
def getCalmness (intervals : List ℚ) : ℚ :=
  if intervals.length < 2 then 1/2
  else
    let avg := intervals.foldl (· + ·) 0 / (intervals.length : ℚ)
    min 1 (max 0 ((avg - 200) / 600))

end HeartRateTracker

/-- Press speed classification used by the `Ripple` constructors. -/
inductive Speed where
  | slow
  | medium
  deriving DecidableEq

namespace V1

/-- Variant 1 `Ripple` state (color omitted: display-only). -/
structure Ripple where
  x : ℚ
  y : ℚ
  r : ℚ
  alpha : ℚ
  maxR : ℚ
  growthRate : ℚ
  deriving DecidableEq

/-- Variant 1 `Ripple` constructor: `r = 0`, `alpha = 150`; slow presses get
`maxR = 500, growthRate = 0.8`, medium presses `maxR = 280,
growthRate = 1.2`. -/
def Ripple.init (x y : ℚ) : Speed → Ripple
  | .slow => { x := x, y := y, r := 0, alpha := 150, maxR := 500, growthRate := 8/10 }
  | .medium => { x := x, y := y, r := 0, alpha := 150, maxR := 280, growthRate := 12/10 }

/-- Variant 1 `Ripple.update`: `r += growthRate; alpha -= 0.3`. -/
def Ripple.update (rp : Ripple) : Ripple :=
  { rp with r := rp.r + rp.growthRate, alpha := rp.alpha - 3/10 }

/-- Variant 1 `Ripple.isDead`: `alpha <= 0 || r > maxR`. -/
def Ripple.isDead (rp : Ripple) : Prop :=
  rp.alpha ≤ 0 ∨ rp.r > rp.maxR

instance (rp : Ripple) : Decidable rp.isDead := by
  unfold Ripple.isDead; infer_instance

/-- Variant 1 `Particle` state. -/
structure Particle where
  x : ℚ
  y : ℚ
  vx : ℚ
  vy : ℚ
  alpha : ℚ
  size : ℚ
  deriving DecidableEq

/-- Variant 1 `Particle` constructor: `alpha = 180`; the velocity drawn from
the random angle and speed, and the random size, arrive as parameters. -/
def Particle.init (x y vx vy sizeRand : ℚ) : Particle :=
  { x := x, y := y, vx := vx, vy := vy, alpha := 180, size := sizeRand }

/-- Variant 1 `Particle.update`: position advances by the velocity, then
`vy += 0.015` (gravity), `alpha -= 0.6`, `size *= 0.997`. -/
def Particle.update (pt : Particle) : Particle :=
  { pt with
    x := pt.x + pt.vx
    y := pt.y + pt.vy
    vy := pt.vy + 15/1000
    alpha := pt.alpha - 6/10
    size := pt.size * (997/1000) }

/-- Variant 1 `Particle.isDead`: `alpha <= 0`. -/
def Particle.isDead (pt : Particle) : Prop :=
  pt.alpha ≤ 0

instance (pt : Particle) : Decidable pt.isDead := by
  unfold Particle.isDead; infer_instance

/-- Kind of element pushed by the variant 1 dispatcher. -/
inductive SpawnKind where
  | slowRipple
  | mediumRipple
  | particle
  deriving DecidableEq

/-- Mutable state the variant 1 `mousePressed` handler touches:
`lastClickTimeRef` and the element collection (recorded by spawn kind). -/
structure SketchState where
  lastClickTime : ℚ
  elements : List SpawnKind
  deriving DecidableEq

/-- Variant 1 `p.mousePressed`: return untouched inside the save-button
hot-zone; otherwise compute the interval, store the press time, and spawn
one slow ripple (`interval > 600`), one medium ripple (`interval > 300`),
or ten particles. -/
def mousePressed (s : SketchState) (mouseX mouseY width height currentTime : ℚ) :
    SketchState :=
  if mouseX > width - 180 ∧ mouseY > height - 80 then s
  else
    let interval := currentTime - s.lastClickTime
    let s1 : SketchState := { s with lastClickTime := currentTime }
    if interval > 600 then
      { s1 with elements := s1.elements ++ [SpawnKind.slowRipple] }
    else if interval > 300 then
      { s1 with elements := s1.elements ++ [SpawnKind.mediumRipple] }
    else
      { s1 with elements := s1.elements ++ List.replicate 10 SpawnKind.particle }

end V1

/-- JavaScript number semantics for the variant 2 ripple radius: the update
computes `Math.pow(1 - r/maxR, 0.5)`, which is `NaN` for a negative base,
and `NaN` then propagates through the arithmetic while every comparison
against it is false.  Only the radius is ever assigned a possibly-`NaN`
expression (the opacity decrement runs only under a `progress > 0.7` guard,
which a `NaN` progress fails), so the other fields stay real-valued.
Division by zero, which in JavaScript yields an infinity rather than `NaN`,
is collapsed to `nan` here: it would need `maxR = 0`, and both constructor
branches set `maxR` to `600` or `320`, so no theorem below exercises that
case (each one either assumes `0 < maxR` or never divides). -/
inductive JsNum where
  | num (val : ℝ)
  | nan

namespace JsNum

/-- JS addition: `NaN` propagates. -/
noncomputable def add : JsNum → JsNum → JsNum
  | num a, num b => num (a + b)
  | _, _ => nan

/-- JS subtraction: `NaN` propagates. -/
noncomputable def sub : JsNum → JsNum → JsNum
  | num a, num b => num (a - b)
  | _, _ => nan

/-- JS multiplication: `NaN` propagates (also through a zero factor). -/
noncomputable def mul : JsNum → JsNum → JsNum
  | num a, num b => num (a * b)
  | _, _ => nan

/-- JS division: `NaN` propagates; a zero divisor is collapsed to `nan`
(see the type-level comment: that case is outside every constructor-reachable
state and outside every hypothesis below). -/
noncomputable def div : JsNum → JsNum → JsNum
  | num a, num b => if b = 0 then nan else num (a / b)
  | _, _ => nan

/-- JS `Math.pow(x, 0.5)`: the square root for a nonnegative base, `NaN`
for a negative or `NaN` base. -/
noncomputable def powHalf : JsNum → JsNum
  | num a => if a < 0 then nan else num (Real.sqrt a)
  | nan => nan

/-- JS `>`: false whenever either side is `NaN`. -/
def gt : JsNum → JsNum → Prop
  | num a, num b => a > b
  | _, _ => False

/-- JS `<=`: false whenever either side is `NaN`. -/
def le : JsNum → JsNum → Prop
  | num a, num b => a ≤ b
  | _, _ => False

end JsNum

namespace V2

/-- Variant 2 `Ripple` state, over `ℝ` because its update takes a square
root, with the radius carried as a `JsNum` because its update expression is
the one place a `NaN` can arise (`wobbleAmount` and color omitted:
display-only). -/
structure Ripple where
  x : ℝ
  y : ℝ
  r : JsNum
  alpha : ℝ
  maxR : ℝ
  baseGrowthRate : ℝ
  phase : ℝ
  wobbleSpeed : ℝ
  dissolved : Bool

/-- Variant 2 `Ripple` constructor: `r = 0`, `alpha = 180`,
`dissolved = false`; slow presses get `maxR = 600, baseGrowthRate = 1.2`,
medium presses `maxR = 320, baseGrowthRate = 1.5`; the random phase and
wobble speed arrive as parameters. -/
noncomputable def Ripple.init (x y : ℝ) (speed : Speed) (phaseRand wobbleSpeedRand : ℝ) : Ripple :=
  match speed with
  | .slow =>
    { x := x, y := y, r := JsNum.num 0, alpha := 180, maxR := 600, baseGrowthRate := 12/10,
      phase := phaseRand, wobbleSpeed := wobbleSpeedRand, dissolved := false }
  | .medium =>
    { x := x, y := y, r := JsNum.num 0, alpha := 180, maxR := 320, baseGrowthRate := 15/10,
      phase := phaseRand, wobbleSpeed := wobbleSpeedRand, dissolved := false }

/-- Variant 2 `Ripple.update`: with `progress = r / maxR`, the radius grows
by `baseGrowthRate * Math.pow(1 - progress, 0.5)` in JS number semantics —
for `r > maxR` the pow base is negative, the power is `NaN`, and the radius
itself becomes `NaN`; once `progress > 0.7` (false for a `NaN` progress)
the opacity drops by `0.8 * (progress - 0.7) / 0.3` and the dissolve flag
latches; the wobble phase always advances by `wobbleSpeed`. -/
noncomputable def Ripple.update (rp : Ripple) : Ripple :=
  let progress := JsNum.div rp.r (JsNum.num rp.maxR)
  let deceleration := JsNum.powHalf (JsNum.sub (JsNum.num 1) progress)
  { rp with
    r := JsNum.add rp.r (JsNum.mul (JsNum.num rp.baseGrowthRate) deceleration)
    alpha :=
      match progress with
      | JsNum.num p => if p > 7/10 then rp.alpha - (8/10) * (p - 7/10) / (3/10) else rp.alpha
      | JsNum.nan => rp.alpha
    dissolved :=
      match progress with
      | JsNum.num p => if p > 7/10 then true else rp.dissolved
      | JsNum.nan => rp.dissolved
    phase := rp.phase + rp.wobbleSpeed }

/-- Variant 2 `Ripple.isDead`: `alpha <= 0 || r > maxR`, the radius
comparison being false when the radius is `NaN`. -/
def Ripple.isDead (rp : Ripple) : Prop :=
  rp.alpha ≤ 0 ∨ JsNum.gt rp.r (JsNum.num rp.maxR)

/-- Variant 2 `Particle` state: as variant 1 plus the captured canvas
bounds and the edge-attraction coefficient. -/
structure Particle where
  x : ℚ
  y : ℚ
  vx : ℚ
  vy : ℚ
  alpha : ℚ
  size : ℚ
  canvasWidth : ℚ
  canvasHeight : ℚ
  edgeAttraction : ℚ
  deriving DecidableEq

/-- Variant 2 `Particle` constructor: `alpha = 200`; the edge-attraction
coefficient is `map(calmness, 0, 1, 0.08, 0.02)`; the velocity drawn from
the random angle and speed, and the random size, arrive as parameters. -/
def Particle.init (p_width p_height x y calmness vx vy sizeRand : ℚ) : Particle :=
  { x := x, y := y, canvasWidth := p_width, canvasHeight := p_height,
    vx := vx, vy := vy, alpha := 200, size := sizeRand,
    edgeAttraction := P5.mapRange calmness 0 1 (8/100) (2/100) }

/-- Variant 2 `Particle.update`: adds `±edgeAttraction` to `vx` when the
nearer horizontal edge is strictly closer than the nearer vertical edge
(sign pulling toward the closer of left/right), otherwise to `vy` (sign
pulling toward the closer of top/bottom); integrates the updated velocity
into the position; damps both velocity components by `0.995`; drops the
opacity by `1.5` when the pre-move distance to the nearest edge is below
`100` and by `0.5` otherwise; shrinks the size by `0.998`. -/
def Particle.update (pt : Particle) : Particle :=
  let distToLeft := pt.x
  let distToRight := pt.canvasWidth - pt.x
  let distToTop := pt.y
  let distToBottom := pt.canvasHeight - pt.y
  let minHorizontal := min distToLeft distToRight
  let minVertical := min distToTop distToBottom
  let vx1 :=
    if minHorizontal < minVertical then
      if distToLeft < distToRight then pt.vx - pt.edgeAttraction
      else pt.vx + pt.edgeAttraction
    else pt.vx
  let vy1 :=
    if minHorizontal < minVertical then pt.vy
    else
      if distToTop < distToBottom then pt.vy - pt.edgeAttraction
      else pt.vy + pt.edgeAttraction
  let edgeDist := min (min distToLeft distToRight) (min distToTop distToBottom)
  let edgeFade : ℚ := if edgeDist < 100 then 3/2 else 1/2
  { pt with
    x := pt.x + vx1
    y := pt.y + vy1
    vx := vx1 * (995/1000)
    vy := vy1 * (995/1000)
    alpha := pt.alpha - edgeFade
    size := pt.size * (998/1000) }

/-- Variant 2 `Particle.isDead`: faded out or outside the captured canvas
bounds by more than 20 pixels. -/
def Particle.isDead (pt : Particle) : Prop :=
  pt.alpha ≤ 0 ∨ pt.x < -20 ∨ pt.x > pt.canvasWidth + 20 ∨
    pt.y < -20 ∨ pt.y > pt.canvasHeight + 20

instance (pt : Particle) : Decidable pt.isDead := by
  unfold Particle.isDead; infer_instance

/-- Kind of element pushed by the variant 2 dispatcher; a particle records
the calmness value handed to its constructor. -/
inductive SpawnKind where
  | slowRipple
  | mediumRipple
  | particle (calmness : ℚ)
  deriving DecidableEq

/-- Number of particles of a fast-press burst:
`Math.floor(lerp(15, 8, calmness))` (a `for` loop with a negative bound
runs zero times, hence `Int.toNat`). -/
def particleCount (calmness : ℚ) : ℕ :=
  (⌊P5.lerp 15 8 calmness⌋).toNat

/-- Mutable state the variant 2 `mousePressed` handler can read or touch:
`lastClickTimeRef`, the tracker history, the atmosphere scalar, and the
element collection (recorded by spawn kind). -/
structure SketchState where
  lastClickTime : ℚ
  intervals : List ℚ
  atmosphere : ℚ
  elements : List SpawnKind
  deriving DecidableEq

/-- Variant 2 `p.mousePressed`: return untouched inside the save-button
hot-zone; otherwise compute the interval, store the press time, feed the
interval to the tracker when it is below 2000 ms, read the tracker's
calmness, and spawn one slow ripple (`interval > 600`), one medium ripple
(`interval > 300`), or `particleCount calmness` particles constructed with
that calmness. -/
def mousePressed (s : SketchState) (mouseX mouseY width height currentTime : ℚ) :
    SketchState :=
  if mouseX > width - 180 ∧ mouseY > height - 80 then s
  else
    let interval := currentTime - s.lastClickTime
    let s1 : SketchState := { s with lastClickTime := currentTime }
    let s2 : SketchState :=
      if interval < 2000 then
        { s1 with intervals := HeartRateTracker.addInterval s1.intervals interval }
      else s1
    let calmness := HeartRateTracker.getCalmness s2.intervals
    if interval > 600 then
      { s2 with elements := s2.elements ++ [SpawnKind.slowRipple] }
    else if interval > 300 then
      { s2 with elements := s2.elements ++ [SpawnKind.mediumRipple] }
    else
      { s2 with elements :=
          s2.elements ++ List.replicate (particleCount calmness) (SpawnKind.particle calmness) }

/-- Variant 2 per-frame atmosphere smoothing:
`atmosphere += (target - atmosphere) * 0.02`. -/
def atmosphereStep (atmosphere target : ℚ) : ℚ :=
  atmosphere + (target - atmosphere) * (2/100)

/-- Atmosphere value after a sequence of frames, each frame reading the
tracker's calmness from the given interval history; the ref starts at
`0.5`. -/
def atmosphereRun (frames : List (List ℚ)) : ℚ :=
  frames.foldl (fun a l => atmosphereStep a (HeartRateTracker.getCalmness l)) (1/2)

end V2

/-- One iteration slice of the per-frame element loop shared by both
variants (`display` omitted: it does not change element state).  The fuel
argument is the current index plus one; each step replaces the element at
the index with its updated value and splices it out when it reports dead,
then moves to the next smaller index. -/
def drawLoopAux {α : Type} (step : α → α) (dead : α → Bool) : ℕ → List α → List α
  | 0, l => l
  | i + 1, l =>
    match l[i]? with
    | none => drawLoopAux step dead i l
    | some a =>
      let a2 := step a
      let l2 := l.set i a2
      if dead a2 then drawLoopAux step dead i (l2.eraseIdx i)
      else drawLoopAux step dead i l2

/-- The per-frame element loop: `for (i = elements.length - 1; i >= 0; i--)
{ elements[i].update(); elements[i].display(p); if (elements[i].isDead())
elements.splice(i, 1); }`. -/
def drawLoop {α : Type} (step : α → α) (dead : α → Bool) (l : List α) : List α :=
  drawLoopAux step dead l.length l

/-! Helper lemmas shared by the claim theorems. -/

/-- The tracker's calmness always lies in the unit interval. -/
theorem getCalmness_mem (l : List ℚ) :
    0 ≤ HeartRateTracker.getCalmness l ∧ HeartRateTracker.getCalmness l ≤ 1 := by
  unfold HeartRateTracker.getCalmness
  split
  · norm_num
  · exact ⟨le_min (by norm_num) (le_max_left 0 _), min_le_left 1 _⟩

/-- One `addInterval` keeps the history within capacity. -/
theorem addInterval_length_le (l : List ℚ) (x : ℚ) (h : l.length ≤ 10) :
    (HeartRateTracker.addInterval l x).length ≤ 10 := by
  simp only [HeartRateTracker.addInterval, HeartRateTracker.maxSamples]
  split
  · simp
    omega
  · rename_i h2
    simp at h2 ⊢
    omega

/-- Folding `addInterval` over any sample sequence keeps the history within
capacity. -/
theorem foldl_addInterval_length (xs : List ℚ) :
    ∀ l : List ℚ, l.length ≤ 10 → (xs.foldl HeartRateTracker.addInterval l).length ≤ 10 := by
  induction xs with
  | nil => intro l h; simpa using h
  | cons a as ih => intro l h; exact ih _ (addInterval_length_le l a h)

/-- One atmosphere smoothing step stays in the unit interval. -/
theorem atmosphereStep_mem (a t : ℚ) (ha0 : 0 ≤ a) (ha1 : a ≤ 1) (ht0 : 0 ≤ t)
    (ht1 : t ≤ 1) : 0 ≤ V2.atmosphereStep a t ∧ V2.atmosphereStep a t ≤ 1 := by
  unfold V2.atmosphereStep
  constructor <;> nlinarith

/-- Folding the atmosphere smoothing from any point of the unit interval
stays in the unit interval. -/
theorem atmosphere_foldl_mem (frames : List (List ℚ)) :
    ∀ a : ℚ, 0 ≤ a → a ≤ 1 →
      0 ≤ frames.foldl (fun b l => V2.atmosphereStep b (HeartRateTracker.getCalmness l)) a ∧
      frames.foldl (fun b l => V2.atmosphereStep b (HeartRateTracker.getCalmness l)) a ≤ 1 := by
  induction frames with
  | nil => intro a h0 h1; simpa using ⟨h0, h1⟩
  | cons f fs ih =>
    intro a h0 h1
    have hs := atmosphereStep_mem a (HeartRateTracker.getCalmness f) h0 h1
      (getCalmness_mem f).1 (getCalmness_mem f).2
    simpa using ih _ hs.1 hs.2

/-- C2: `getCalmness` returns `0.5` with fewer than two samples, otherwise
the clamped affine image of the sample mean, and in every case a value in
`[0, 1]`. -/
theorem tracker_value_spec (l : List ℚ) :
    (l.length < 2 → HeartRateTracker.getCalmness l = 1/2) ∧
    (2 ≤ l.length →
      HeartRateTracker.getCalmness l =
        min 1 (max 0 ((l.foldl (· + ·) 0 / (l.length : ℚ) - 200) / 600))) ∧
    0 ≤ HeartRateTracker.getCalmness l ∧ HeartRateTracker.getCalmness l ≤ 1 := by
  refine ⟨?_, ?_, getCalmness_mem l⟩
  · intro h
    simp [HeartRateTracker.getCalmness, h]
  · intro h
    rw [HeartRateTracker.getCalmness, if_neg (by omega)]

theorem tracker_value_spec_witness :
    HeartRateTracker.getCalmness [500] = 1/2 ∧
    HeartRateTracker.getCalmness [250, 350] = 1/6 := by
  constructor
  · exact (tracker_value_spec [500]).1 (by simp)
  · have h := (tracker_value_spec [250, 350]).2.1 (by simp)
    rw [h]
    norm_num [List.foldl]

/-- C5: the tracker history never exceeds 10 samples, and a sample added at
capacity evicts exactly the oldest (head) sample. -/
theorem tracker_capacity_fifo :
    (∀ xs : List ℚ, (xs.foldl HeartRateTracker.addInterval []).length ≤ 10) ∧
    (∀ (l : List ℚ) (x : ℚ), l.length = 10 →
      HeartRateTracker.addInterval l x = l.tail ++ [x]) := by
  constructor
  · intro xs
    exact foldl_addInterval_length xs [] (by simp)
  · intro l x h
    have hlen : (l ++ [x]).length > HeartRateTracker.maxSamples := by
      simp [h, HeartRateTracker.maxSamples]
    rw [HeartRateTracker.addInterval, if_pos hlen]
    cases l with
    | nil => simp at h
    | cons a t => simp

theorem tracker_capacity_fifo_witness :
    HeartRateTracker.addInterval [1, 2, 3, 4, 5, 6, 7, 8, 9, 10] 11 =
      [2, 3, 4, 5, 6, 7, 8, 9, 10, 11] := by
  have h := tracker_capacity_fifo.2 [1, 2, 3, 4, 5, 6, 7, 8, 9, 10] 11 (by simp)
  rw [h]
  rfl

/-- C8: one smoothing step `a + (t - a) * 0.02` with a target in `[0, 1]`
keeps the atmosphere in `[0, 1]`, and an entire run started at `0.5` whose
per-frame targets come from the tracker stays in `[0, 1]`. -/
theorem atmosphere_invariant :
    (∀ a t : ℚ, 0 ≤ a → a ≤ 1 → 0 ≤ t → t ≤ 1 →
      0 ≤ V2.atmosphereStep a t ∧ V2.atmosphereStep a t ≤ 1) ∧
    (∀ frames : List (List ℚ),
      0 ≤ V2.atmosphereRun frames ∧ V2.atmosphereRun frames ≤ 1) := by
  constructor
  · exact atmosphereStep_mem
  · intro frames
    unfold V2.atmosphereRun
    exact atmosphere_foldl_mem frames (1/2) (by norm_num) (by norm_num)

theorem atmosphere_invariant_witness :
    0 ≤ V2.atmosphereStep (1/2) 1 ∧ V2.atmosphereStep (1/2) 1 ≤ 1 :=
  atmosphere_invariant.1 (1/2) 1 (by norm_num) (by norm_num) (by norm_num) (by norm_num)

/-- C9: a press landing in the save-button hot-zone changes nothing, in
both variants. -/
theorem hotzone_press_noop :
    (∀ (s : V1.SketchState) (mx my w h t : ℚ), mx > w - 180 → my > h - 80 →
      V1.mousePressed s mx my w h t = s) ∧
    (∀ (s : V2.SketchState) (mx my w h t : ℚ), mx > w - 180 → my > h - 80 →
      V2.mousePressed s mx my w h t = s) := by
  constructor
  · intro s mx my w h t h1 h2
    rw [V1.mousePressed, if_pos ⟨h1, h2⟩]
  · intro s mx my w h t h1 h2
    rw [V2.mousePressed, if_pos ⟨h1, h2⟩]

theorem hotzone_press_noop_witness :
    V1.mousePressed ⟨0, []⟩ 1000 1000 1000 1000 50 = ⟨0, []⟩ ∧
    V2.mousePressed ⟨0, [], 1/2, []⟩ 1000 1000 1000 1000 50 = ⟨0, [], 1/2, []⟩ := by
  constructor
  · exact hotzone_press_noop.1 _ 1000 1000 1000 1000 50 (by norm_num) (by norm_num)
  · exact hotzone_press_noop.2 _ 1000 1000 1000 1000 50 (by norm_num) (by norm_num)

/-- C3 counterexample: the variant-2 ripple at radius 700 with cap 600 and
opacity 100 is dead (radius overrun), yet one more update revives it: the
update computes `Math.pow(1 - 700/600, 0.5) = NaN`, the radius becomes
`NaN`, the `NaN > maxR` comparison is false, and the opacity (still about
98.8 after the dissolve decrement) keeps `isDead` false. -/
theorem ripple_radius_death_not_permanent :
    V2.Ripple.isDead ⟨0, 0, JsNum.num 700, 100, 600, 12/10, 0, 0, false⟩ ∧
    ¬ V2.Ripple.isDead
      (V2.Ripple.update ⟨0, 0, JsNum.num 700, 100, 600, 12/10, 0, 0, false⟩) := by
  have hdiv : JsNum.div (JsNum.num 700) (JsNum.num 600) = JsNum.num (700/600) := by
    norm_num [JsNum.div]
  have hpow : JsNum.powHalf (JsNum.sub (JsNum.num 1) (JsNum.num (700/600))) = JsNum.nan := by
    norm_num [JsNum.sub, JsNum.powHalf]
  constructor
  · exact Or.inr (by norm_num [JsNum.gt])
  · rintro (h | h)
    · simp only [V2.Ripple.update, hdiv] at h
      norm_num at h
    · simp only [V2.Ripple.update, hdiv, hpow, JsNum.mul, JsNum.add] at h
      simp [JsNum.gt] at h

/-- C3 (amended): death is permanent for every variant 1 ripple and for
every variant 2 ripple dead by opacity; but a variant 2 ripple dead by
radius overrun (radius past a positive cap) is revived by the next update,
which drives its radius to `NaN` so that the radius half of `isDead` is
false from then on — it stays alive as long as its opacity is positive.
(The compositor splices dead elements out in the frame that kills them, so
the running program never applies `update` to a dead element.) -/
theorem ripple_death_cases :
    (∀ rp : V1.Ripple, 0 ≤ rp.growthRate → rp.isDead → rp.update.isDead) ∧
    (∀ rp : V2.Ripple, rp.alpha ≤ 0 → rp.update.isDead) ∧
    (∀ (rp : V2.Ripple) (x : ℝ), rp.r = JsNum.num x → 0 < rp.maxR → rp.maxR < x →
      rp.update.r = JsNum.nan ∧ (0 < rp.update.alpha → ¬ rp.update.isDead)) := by
  refine ⟨?_, ?_, ?_⟩
  · intro rp hg hd
    rcases hd with h | h
    · exact Or.inl (by simp only [V1.Ripple.update]; linarith)
    · exact Or.inr (by simp only [V1.Ripple.update]; linarith)
  · intro rp h
    left
    simp only [V2.Ripple.update]
    split
    · split
      · linarith
      · exact h
    · exact h
  · intro rp x hr hm hx
    have hdiv : JsNum.div (JsNum.num x) (JsNum.num rp.maxR) = JsNum.num (x / rp.maxR) := by
      simp [JsNum.div, hm.ne']
    have hneg : (1:ℝ) - x / rp.maxR < 0 := by
      have : (1:ℝ) < x / rp.maxR := (one_lt_div hm).mpr hx
      linarith
    have hpow : JsNum.powHalf (JsNum.sub (JsNum.num 1) (JsNum.num (x / rp.maxR))) =
        JsNum.nan := by
      simp [JsNum.sub, JsNum.powHalf, hneg]
    have hrupd : rp.update.r = JsNum.nan := by
      simp [V2.Ripple.update, hr, hdiv, hpow, JsNum.mul, JsNum.add]
    refine ⟨hrupd, ?_⟩
    intro ha
    rintro (h | h)
    · linarith
    · have hmax : rp.update.maxR = rp.maxR := by simp [V2.Ripple.update]
      rw [hrupd, hmax] at h
      simp [JsNum.gt] at h

theorem ripple_death_cases_witness :
    V1.Ripple.isDead (V1.Ripple.update ⟨0, 0, 0, 0, 500, 8/10⟩) ∧
    V2.Ripple.isDead (V2.Ripple.update ⟨0, 0, JsNum.num 0, 0, 600, 12/10, 0, 0, false⟩) ∧
    (V2.Ripple.update ⟨0, 0, JsNum.num 700, 100, 600, 12/10, 0, 0, false⟩).r =
      JsNum.nan := by
  refine ⟨?_, ?_, ?_⟩
  · exact ripple_death_cases.1 ⟨0, 0, 0, 0, 500, 8/10⟩ (by norm_num)
      (Or.inl (by norm_num))
  · exact ripple_death_cases.2.1 ⟨0, 0, JsNum.num 0, 0, 600, 12/10, 0, 0, false⟩
      (le_refl 0)
  · exact (ripple_death_cases.2.2 ⟨0, 0, JsNum.num 700, 100, 600, 12/10, 0, 0, false⟩
      700 rfl (by norm_num) (by norm_num)).1

/-- C4: one update never shrinks the radius of a live ripple (opacity
positive, radius within the cap), in both variants, assuming the
constructor-set nonnegative growth rate and (variant 2) positive radius
cap — within the cap the pow base `1 - r/maxR` is nonnegative, so the
growth term is a real square root and no `NaN` arises. -/
theorem ripple_radius_monotone :
    (∀ rp : V1.Ripple, 0 ≤ rp.growthRate → 0 < rp.alpha → rp.r ≤ rp.maxR →
      rp.r ≤ rp.update.r) ∧
    (∀ rp : V2.Ripple, 0 ≤ rp.baseGrowthRate → 0 < rp.alpha → 0 < rp.maxR →
      JsNum.le rp.r (JsNum.num rp.maxR) → JsNum.le rp.r rp.update.r) := by
  constructor
  · intro rp hg _ _
    simp only [V1.Ripple.update]
    linarith
  · intro rp hg _ hm hle
    cases hr : rp.r with
    | nan =>
      rw [hr] at hle
      exact absurd hle (by simp [JsNum.le])
    | num x =>
      rw [hr] at hle
      have hx : x ≤ rp.maxR := hle
      have h0 : (0:ℝ) ≤ 1 - x / rp.maxR := by
        have : x / rp.maxR ≤ 1 := (div_le_one hm).mpr hx
        linarith
      have hdiv : JsNum.div (JsNum.num x) (JsNum.num rp.maxR) = JsNum.num (x / rp.maxR) := by
        simp [JsNum.div, hm.ne']
      have hnot : ¬((1:ℝ) - x / rp.maxR < 0) := not_lt.mpr h0
      have hpow : JsNum.powHalf (JsNum.sub (JsNum.num 1) (JsNum.num (x / rp.maxR))) =
          JsNum.num (Real.sqrt (1 - x / rp.maxR)) := by
        simp [JsNum.sub, JsNum.powHalf, hnot]
      have hrupd : rp.update.r =
          JsNum.num (x + rp.baseGrowthRate * Real.sqrt (1 - x / rp.maxR)) := by
        simp [V2.Ripple.update, hr, hdiv, hpow, JsNum.mul, JsNum.add]
      rw [hrupd]
      show x ≤ x + rp.baseGrowthRate * Real.sqrt (1 - x / rp.maxR)
      have hs := Real.sqrt_nonneg (1 - x / rp.maxR)
      nlinarith

theorem ripple_radius_monotone_witness :
    (V1.Ripple.init 0 0 .slow).r ≤ (V1.Ripple.init 0 0 .slow).update.r ∧
    JsNum.le (V2.Ripple.init 0 0 .slow 0 0).r (V2.Ripple.init 0 0 .slow 0 0).update.r := by
  constructor
  · exact ripple_radius_monotone.1 (V1.Ripple.init 0 0 .slow)
      (by norm_num [V1.Ripple.init]) (by norm_num [V1.Ripple.init])
      (by norm_num [V1.Ripple.init])
  · exact ripple_radius_monotone.2 (V2.Ripple.init 0 0 .slow 0 0)
      (by norm_num [V2.Ripple.init]) (by norm_num [V2.Ripple.init])
      (by norm_num [V2.Ripple.init])
      (by norm_num [V2.Ripple.init, JsNum.le])

/-- Variant 1 particle opacity after `n` updates. -/
theorem v1_particle_alpha_iterate (pt : V1.Particle) (n : ℕ) :
    (V1.Particle.update^[n] pt).alpha = pt.alpha - n * (6/10) := by
  induction n with
  | zero => simp
  | succ k ih =>
    rw [Function.iterate_succ_apply']
    simp only [V1.Particle.update]
    rw [ih]
    push_cast
    ring

/-- Variant 2 particle opacity drops by at least `0.5` per update. -/
theorem v2_particle_update_alpha_le (pt : V2.Particle) :
    (V2.Particle.update pt).alpha ≤ pt.alpha - 1/2 := by
  simp only [V2.Particle.update]
  split <;> linarith

/-- Variant 2 particle opacity after `n` updates. -/
theorem v2_particle_alpha_iterate (pt : V2.Particle) (n : ℕ) :
    (V2.Particle.update^[n] pt).alpha ≤ pt.alpha - n * (1/2) := by
  induction n with
  | zero => simp
  | succ k ih =>
    rw [Function.iterate_succ_apply']
    have h := v2_particle_update_alpha_le (V2.Particle.update^[k] pt)
    push_cast
    push_cast at ih
    linarith

/-- C10: each update lowers a particle's opacity by a fixed amount (`0.6`
in variant 1; `1.5` or `0.5` in variant 2 depending on the pre-move
distance to the nearest edge), so from an initial opacity of at most `200`
every particle is dead after 400 updates, whatever its position, velocity
and calmness. -/
theorem particle_termination :
    (∀ pt : V1.Particle, (V1.Particle.update pt).alpha = pt.alpha - 6/10) ∧
    (∀ pt : V1.Particle, pt.alpha ≤ 200 → (V1.Particle.update^[400] pt).isDead) ∧
    (∀ pt : V2.Particle, (V2.Particle.update pt).alpha =
      pt.alpha - (if min (min pt.x (pt.canvasWidth - pt.x))
        (min pt.y (pt.canvasHeight - pt.y)) < 100 then 3/2 else 1/2)) ∧
    (∀ pt : V2.Particle, pt.alpha ≤ 200 → (V2.Particle.update^[400] pt).isDead) := by
  refine ⟨?_, ?_, ?_, ?_⟩
  · intro pt
    simp only [V1.Particle.update]
  · intro pt h
    have hit := v1_particle_alpha_iterate pt 400
    show (V1.Particle.update^[400] pt).alpha ≤ 0
    rw [hit]
    push_cast
    linarith
  · intro pt
    simp only [V2.Particle.update]
  · intro pt h
    have hit := v2_particle_alpha_iterate pt 400
    push_cast at hit
    exact Or.inl (by linarith)

theorem particle_termination_witness :
    V1.Particle.isDead (V1.Particle.update^[400] (V1.Particle.init 0 0 1 1 3)) ∧
    V2.Particle.isDead (V2.Particle.update^[400]
      (V2.Particle.init 1000 800 500 400 (1/2) 1 1 3)) := by
  constructor
  · exact particle_termination.2.1 _ (by norm_num [V1.Particle.init])
  · exact particle_termination.2.2.2 _ (by norm_num [V2.Particle.init])

/-- C6: one pass of the reverse-index element loop over `[A, B, C]`, where
the stepped `A` and `C` report dead and the stepped `B` does not, removes
both dead elements and keeps exactly the stepped `B`: the backward
iteration never skips an element across a splice. -/
theorem cull_pass_reverse {α : Type} (step : α → α) (dead : α → Bool) (A B C : α)
    (hA : dead (step A) = true) (hB : dead (step B) = false)
    (hC : dead (step C) = true) :
    drawLoop step dead [A, B, C] = [step B] := by
  simp [drawLoop, drawLoopAux, hA, hB, hC]

theorem cull_pass_reverse_witness :
    drawLoop Nat.succ (fun n => decide (n ≠ 2)) [5, 1, 7] = [2] := by
  have h := cull_pass_reverse Nat.succ (fun n => decide (n ≠ 2)) 5 1 7
    (by decide) (by decide) (by decide)
  simpa using h

/-- C1 (amended): outside the hot-zone, a press with interval above 600 ms
spawns exactly one slow ripple, one with interval in (300, 600] exactly one
medium ripple, and any other press a burst of particles — 10 in variant 1,
and in variant 2 `floor (lerp 15 8 c)` particles where `c` is the
tracker's instantaneous calmness after the interval is recorded (not the
smoothed atmosphere scalar, which the handler never reads); that count
always lies in `[8, 15]` and a calmer value never yields more
particles. -/
theorem dispatch_classification :
    (∀ (s : V1.SketchState) (mx my w h t : ℚ), ¬(mx > w - 180 ∧ my > h - 80) →
      (t - s.lastClickTime > 600 →
        V1.mousePressed s mx my w h t =
          ⟨t, s.elements ++ [V1.SpawnKind.slowRipple]⟩) ∧
      (300 < t - s.lastClickTime → t - s.lastClickTime ≤ 600 →
        V1.mousePressed s mx my w h t =
          ⟨t, s.elements ++ [V1.SpawnKind.mediumRipple]⟩) ∧
      (t - s.lastClickTime ≤ 300 →
        V1.mousePressed s mx my w h t =
          ⟨t, s.elements ++ List.replicate 10 V1.SpawnKind.particle⟩)) ∧
    (∀ (s : V2.SketchState) (mx my w h t : ℚ), ¬(mx > w - 180 ∧ my > h - 80) →
      (t - s.lastClickTime > 600 →
        V2.mousePressed s mx my w h t =
          ⟨t,
           if t - s.lastClickTime < 2000 then
             HeartRateTracker.addInterval s.intervals (t - s.lastClickTime)
           else s.intervals,
           s.atmosphere, s.elements ++ [V2.SpawnKind.slowRipple]⟩) ∧
      (300 < t - s.lastClickTime → t - s.lastClickTime ≤ 600 →
        V2.mousePressed s mx my w h t =
          ⟨t,
           if t - s.lastClickTime < 2000 then
             HeartRateTracker.addInterval s.intervals (t - s.lastClickTime)
           else s.intervals,
           s.atmosphere, s.elements ++ [V2.SpawnKind.mediumRipple]⟩) ∧
      (t - s.lastClickTime ≤ 300 →
        V2.mousePressed s mx my w h t =
          ⟨t,
           if t - s.lastClickTime < 2000 then
             HeartRateTracker.addInterval s.intervals (t - s.lastClickTime)
           else s.intervals,
           s.atmosphere,
           s.elements ++ List.replicate
             (V2.particleCount (HeartRateTracker.getCalmness
               (if t - s.lastClickTime < 2000 then
                  HeartRateTracker.addInterval s.intervals (t - s.lastClickTime)
                else s.intervals)))
             (V2.SpawnKind.particle (HeartRateTracker.getCalmness
               (if t - s.lastClickTime < 2000 then
                  HeartRateTracker.addInterval s.intervals (t - s.lastClickTime)
                else s.intervals)))⟩)) ∧
    (∀ c : ℚ, 0 ≤ c → c ≤ 1 →
      8 ≤ V2.particleCount c ∧ V2.particleCount c ≤ 15) ∧
    (∀ c1 c2 : ℚ, c1 ≤ c2 → V2.particleCount c2 ≤ V2.particleCount c1) := by
  refine ⟨?_, ?_, ?_, ?_⟩
  · intro s mx my w h t hz
    refine ⟨?_, ?_, ?_⟩
    · intro h1
      simp [V1.mousePressed, hz, h1]
    · intro h2 h3
      have h6 : ¬(600 < t - s.lastClickTime) := not_lt.mpr h3
      simp [V1.mousePressed, hz, h2, h6]
    · intro h0
      have h6 : ¬(600 < t - s.lastClickTime) := not_lt.mpr (le_trans h0 (by norm_num))
      have h3 : ¬(300 < t - s.lastClickTime) := not_lt.mpr h0
      simp [V1.mousePressed, hz, h6, h3]
  · intro s mx my w h t hz
    refine ⟨?_, ?_, ?_⟩
    · intro h1
      by_cases hc : t - s.lastClickTime < 2000 <;>
        simp [V2.mousePressed, hz, h1, hc]
    · intro h2 h3
      have h6 : ¬(600 < t - s.lastClickTime) := not_lt.mpr h3
      by_cases hc : t - s.lastClickTime < 2000 <;>
        simp [V2.mousePressed, hz, h2, h6, hc]
    · intro h0
      have h6 : ¬(600 < t - s.lastClickTime) := not_lt.mpr (le_trans h0 (by norm_num))
      have h3 : ¬(300 < t - s.lastClickTime) := not_lt.mpr h0
      by_cases hc : t - s.lastClickTime < 2000 <;>
        simp [V2.mousePressed, hz, h6, h3, hc]
  · intro c h0 h1
    unfold V2.particleCount
    have hf8 : (8:ℤ) ≤ ⌊P5.lerp 15 8 c⌋ := by
      apply Int.le_floor.mpr
      unfold P5.lerp
      push_cast
      nlinarith
    have hf15 : ⌊P5.lerp 15 8 c⌋ ≤ 15 := by
      have hle : P5.lerp 15 8 c ≤ 15 := by unfold P5.lerp; nlinarith
      calc ⌊P5.lerp 15 8 c⌋ ≤ ⌊(15:ℚ)⌋ := Int.floor_le_floor hle
        _ = 15 := by norm_num
    omega
  · intro c1 c2 hc
    unfold V2.particleCount
    have hle : P5.lerp 15 8 c2 ≤ P5.lerp 15 8 c1 := by unfold P5.lerp; nlinarith
    exact Int.toNat_le_toNat (Int.floor_le_floor hle)

/-- Calmness of the history reached in the slow-cadence burst scenario. -/
theorem getCalmness_slow_history :
    HeartRateTracker.getCalmness [1100, 1100, 100] = 17/18 := by
  norm_num [HeartRateTracker.getCalmness, List.foldl]

/-- Calmness of the history reached in the fast-cadence burst scenario. -/
theorem getCalmness_fast_history :
    HeartRateTracker.getCalmness [200, 200, 100] = 0 := by
  norm_num [HeartRateTracker.getCalmness, List.foldl]

theorem particleCount_at_17_18 : V2.particleCount (17/18) = 8 := by
  have h : (⌊P5.lerp 15 8 (17/18)⌋ : ℤ) = 8 := by
    norm_num [P5.lerp, Int.floor_eq_iff]
  unfold V2.particleCount
  rw [h]
  rfl

theorem particleCount_at_zero : V2.particleCount 0 = 15 := by
  have h : (⌊P5.lerp 15 8 0⌋ : ℤ) = 15 := by
    norm_num [P5.lerp]
  unfold V2.particleCount
  rw [h]
  rfl

theorem particleCount_at_half : V2.particleCount (1/2) = 11 := by
  have h : (⌊P5.lerp 15 8 (1/2)⌋ : ℤ) = 11 := by
    norm_num [P5.lerp, Int.floor_eq_iff]
  unfold V2.particleCount
  rw [h]
  rfl

/-- Fast press from a calm history (tracker average 766 ms after recording
the press): 8 particles, each built with calmness `17/18`. -/
theorem mousePressed_burst_calm :
    V2.mousePressed ⟨0, [1100, 1100], 1/2, []⟩ 0 0 1000 1000 100 =
      ⟨100, [1100, 1100, 100], 1/2,
       List.replicate 8 (V2.SpawnKind.particle (17/18))⟩ := by
  have hadd : HeartRateTracker.addInterval [1100, 1100] 100 = [1100, 1100, 100] := by
    norm_num [HeartRateTracker.addInterval, HeartRateTracker.maxSamples]
  norm_num [V2.mousePressed, hadd, getCalmness_slow_history, particleCount_at_17_18]

/-- Fast press from an anxious history (tracker average 166 ms after
recording the press): 15 particles, each built with calmness `0`. -/
theorem mousePressed_burst_anxious :
    V2.mousePressed ⟨0, [200, 200], 1/2, []⟩ 0 0 1000 1000 100 =
      ⟨100, [200, 200, 100], 1/2,
       List.replicate 15 (V2.SpawnKind.particle 0)⟩ := by
  have hadd : HeartRateTracker.addInterval [200, 200] 100 = [200, 200, 100] := by
    norm_num [HeartRateTracker.addInterval, HeartRateTracker.maxSamples]
  norm_num [V2.mousePressed, hadd, getCalmness_fast_history, particleCount_at_zero]

/-- C1 counterexample: two presses taken from states with the same smoothed
atmosphere scalar (`0.5` in both) spawn bursts of different sizes (8 and
15), so the burst size is a function of the tracker's instantaneous
calmness, not of the smoothed atmosphere scalar the claim names. -/
theorem dispatch_count_not_atmosphere :
    (⟨0, [1100, 1100], 1/2, []⟩ : V2.SketchState).atmosphere =
      (⟨0, [200, 200], 1/2, []⟩ : V2.SketchState).atmosphere ∧
    (V2.mousePressed ⟨0, [1100, 1100], 1/2, []⟩ 0 0 1000 1000 100).elements.length = 8 ∧
    (V2.mousePressed ⟨0, [200, 200], 1/2, []⟩ 0 0 1000 1000 100).elements.length = 15 := by
  refine ⟨rfl, ?_, ?_⟩
  · rw [mousePressed_burst_calm]
    simp
  · rw [mousePressed_burst_anxious]
    simp

theorem dispatch_classification_witness :
    V1.mousePressed ⟨0, []⟩ 0 0 1000 1000 700 = ⟨700, [V1.SpawnKind.slowRipple]⟩ ∧
    V1.mousePressed ⟨0, []⟩ 0 0 1000 1000 450 = ⟨450, [V1.SpawnKind.mediumRipple]⟩ ∧
    V2.mousePressed ⟨0, [], 1/2, []⟩ 0 0 1000 1000 100 =
      ⟨100, [100], 1/2, List.replicate 11 (V2.SpawnKind.particle (1/2))⟩ := by
  refine ⟨?_, ?_, ?_⟩
  · have h := (dispatch_classification.1 ⟨0, []⟩ 0 0 1000 1000 700 (by norm_num)).1
      (by norm_num)
    simpa using h
  · have h := (dispatch_classification.1 ⟨0, []⟩ 0 0 1000 1000 450 (by norm_num)).2.1
      (by norm_num) (by norm_num)
    simpa using h
  · have h := (dispatch_classification.2.1 ⟨0, [], 1/2, []⟩ 0 0 1000 1000 100
      (by norm_num)).2.2 (by norm_num)
    rw [h]
    have hadd : HeartRateTracker.addInterval [] 100 = [100] := by
      norm_num [HeartRateTracker.addInterval, HeartRateTracker.maxSamples]
    have hcalm : HeartRateTracker.getCalmness [100] = 1/2 := by
      norm_num [HeartRateTracker.getCalmness]
    norm_num [hadd, hcalm, particleCount_at_half]

/-- C7 (amended): each variant 2 particle update biases exactly one
velocity component — `vx` when the nearer horizontal edge is strictly
closer than the nearer vertical edge, `vy` otherwise, never both — with
the sign pulling toward the closer edge of that axis; and the bias
magnitude fixed at construction, `map(c, 0, 1, 0.08, 0.02)`, is strictly
antitone in the calmness value `c` handed to the constructor (the
tracker's instantaneous calmness at spawn, not the smoothed atmosphere
scalar): lower calmness means a stronger pull. -/
theorem particle_edge_bias :
    (∀ pt : V2.Particle,
      (min pt.x (pt.canvasWidth - pt.x) < min pt.y (pt.canvasHeight - pt.y) →
        (pt.x < pt.canvasWidth - pt.x →
          (V2.Particle.update pt).vx = (pt.vx - pt.edgeAttraction) * (995/1000)) ∧
        (pt.canvasWidth - pt.x ≤ pt.x →
          (V2.Particle.update pt).vx = (pt.vx + pt.edgeAttraction) * (995/1000)) ∧
        (V2.Particle.update pt).vy = pt.vy * (995/1000)) ∧
      (min pt.y (pt.canvasHeight - pt.y) ≤ min pt.x (pt.canvasWidth - pt.x) →
        (pt.y < pt.canvasHeight - pt.y →
          (V2.Particle.update pt).vy = (pt.vy - pt.edgeAttraction) * (995/1000)) ∧
        (pt.canvasHeight - pt.y ≤ pt.y →
          (V2.Particle.update pt).vy = (pt.vy + pt.edgeAttraction) * (995/1000)) ∧
        (V2.Particle.update pt).vx = pt.vx * (995/1000))) ∧
    (∀ w h x y c1 c2 vx vy sz : ℚ, c1 < c2 →
      (V2.Particle.init w h x y c2 vx vy sz).edgeAttraction <
        (V2.Particle.init w h x y c1 vx vy sz).edgeAttraction) := by
  constructor
  · intro pt
    constructor
    · intro hH
      refine ⟨?_, ?_, ?_⟩
      · intro hL
        simp [V2.Particle.update, hH, hL]
      · intro hR
        have hL : ¬(pt.x < pt.canvasWidth - pt.x) := not_lt.mpr hR
        simp [V2.Particle.update, hH, hL]
      · simp [V2.Particle.update, hH]
    · intro hV
      have hH : ¬(min pt.x (pt.canvasWidth - pt.x) <
          min pt.y (pt.canvasHeight - pt.y)) := not_lt.mpr hV
      refine ⟨?_, ?_, ?_⟩
      · intro hT
        simp [V2.Particle.update, hH, hT]
      · intro hB
        have hT : ¬(pt.y < pt.canvasHeight - pt.y) := not_lt.mpr hB
        simp [V2.Particle.update, hH, hT]
      · simp [V2.Particle.update, hH]
  · intro w h x y c1 c2 vx vy sz hc
    simp only [V2.Particle.init, P5.mapRange]
    nlinarith

theorem particle_edge_bias_witness :
    (V2.Particle.update ⟨10, 500, 1, 1, 200, 3, 1000, 1000, 2/100⟩).vx =
      (1 - 2/100) * (995/1000) ∧
    (V2.Particle.init 1000 1000 500 500 (1/4) 1 1 3).edgeAttraction <
      (V2.Particle.init 1000 1000 500 500 0 1 1 3).edgeAttraction := by
  constructor
  · exact ((particle_edge_bias.1 ⟨10, 500, 1, 1, 200, 3, 1000, 1000, 2/100⟩).1
      (by norm_num)).1 (by norm_num)
  · exact particle_edge_bias.2 1000 1000 500 500 0 (1/4) 1 1 3 (by norm_num)

/-- C7 counterexample: two presses taken from states with the same smoothed
atmosphere scalar (`0.5` in both) hand different calmness values to the
spawned particles, and the resulting edge-attraction magnitudes differ
(`7/300` versus `8/100`), so the pull strength is not a function of the
smoothed atmosphere scalar the claim names. -/
theorem particle_pull_not_atmosphere :
    (⟨0, [1100, 1100], 1/2, []⟩ : V2.SketchState).atmosphere =
      (⟨0, [200, 200], 1/2, []⟩ : V2.SketchState).atmosphere ∧
    (V2.mousePressed ⟨0, [1100, 1100], 1/2, []⟩ 0 0 1000 1000 100).elements =
      List.replicate 8 (V2.SpawnKind.particle (17/18)) ∧
    (V2.mousePressed ⟨0, [200, 200], 1/2, []⟩ 0 0 1000 1000 100).elements =
      List.replicate 15 (V2.SpawnKind.particle 0) ∧
    (V2.Particle.init 1000 1000 500 500 (17/18) 1 1 3).edgeAttraction = 7/300 ∧
    (V2.Particle.init 1000 1000 500 500 0 1 1 3).edgeAttraction = 8/100 := by
  refine ⟨rfl, ?_, ?_, ?_, ?_⟩
  · rw [mousePressed_burst_calm]
  · rw [mousePressed_burst_anxious]
  · norm_num [V2.Particle.init, P5.mapRange]
  · norm_num [V2.Particle.init, P5.mapRange]
